import Mathlib

/-!
Verification of the OIDC multi-provider authentication flow and frontend
auth state of the app-skeleton repository, as a shallow embedding in Lean.

The backend patterns are embedded from the code snippets in
doc/oidc/OIDC_IMPLEMENTATION_GUIDE.md (state codec, callback validation,
SSL context construction, claim extraction).  Components whose code is not
in the repository snapshot (settings_manager.py, user provisioning) are
modelled from the specification and marked as such in their doc comments.
The frontend auth store and permission masks are embedded from
frontend/src/lib/auth-store.ts and
frontend/src/components/settings/permissions-management.tsx.
-/

/-- Error taxonomy of the OIDC flow (spec section 7). -/
inductive OidcError where
  | MalformedState
  | ProviderMismatch
  | ProvisioningDisabled
  | ClaimMappingFailed (claimName : String)
  | TokenExchangeFailed
deriving DecidableEq, Repr

/-- Splits a character list at the first occurrence of `sep`; returns the
prefix before the separator and the remainder after it, or `none` when the
separator does not occur.  This is the semantics of Python's
`s.split(sep, 1)` used in the callback handler of the guide (Pattern 3). -/
def splitFirst (sep : Char) : List Char → Option (List Char × List Char)
  | [] => none
  | c :: cs =>
    if c = sep then some ([], cs)
    else
      match splitFirst sep cs with
      | none => none
      | some pr => some (c :: pr.1, pr.2)

/-- Embedding of the state generation of Pattern 3 of the guide:
`state_with_provider = f"{provider_id}:{state}"` where `state` is a random
token (`secrets.token_urlsafe(32)`); randomness is abstracted as the
`randomToken` argument. -/
def issue (provider_id randomToken : String) : String :=
  provider_id ++ ":" ++ randomToken

/-- Embedding of the state parsing of Pattern 3 of the guide:
`state_provider, rest = state.split(":", 1)`; a state without the
separator makes the unpacking fail, which the spec names MalformedState. -/
def parse (s : String) : Except OidcError (String × String) :=
  match splitFirst ':' s.data with
  | none => Except.error OidcError.MalformedState
  | some pr => Except.ok (String.mk pr.1, String.mk pr.2)

/-- Embedding of the state validation in the callback handler of Pattern 3
of the guide: when the state is non-empty, its prefix before the first
separator must equal the provider identifier of the route. -/
def validateState (provider_id state : String) : Except OidcError Unit :=
  if state = "" then Except.ok ()
  else
    match parse state with
    | Except.error e => Except.error e
    | Except.ok pr =>
      if pr.1 = provider_id then Except.ok ()
      else Except.error OidcError.ProviderMismatch

/-- Embedding of the callback handler: state validation happens first; the
rest of the flow (token exchange, verification, claim mapping,
provisioning) is abstracted as the continuation `exchangeAndProvision`
applied to the authorization code. -/
def handleCallback (provider_id code state : String)
    (exchangeAndProvision : String → Except OidcError String) :
    Except OidcError String :=
  match validateState provider_id state with
  | Except.error e => Except.error e
  | Except.ok _ => exchangeAndProvision code

theorem splitFirst_append (sep : Char) (a b : List Char) (h : sep ∉ a) :
    splitFirst sep (a ++ sep :: b) = some (a, b) := by
  induction a with
  | nil => simp [splitFirst]
  | cons c cs ih =>
    have hc : ¬ c = sep := by
      intro hcs
      exact h (hcs ▸ List.mem_cons_self c cs)
    have hcs : sep ∉ cs := fun hm => h (List.mem_cons_of_mem c hm)
    simp [splitFirst, hc, ih hcs]

theorem splitFirst_eq_none (sep : Char) (l : List Char) (h : sep ∉ l) :
    splitFirst sep l = none := by
  induction l with
  | nil => rfl
  | cons c cs ih =>
    have hc : ¬ c = sep := by
      intro hcs
      exact h (hcs ▸ List.mem_cons_self c cs)
    have hcs : sep ∉ cs := fun hm => h (List.mem_cons_of_mem c hm)
    simp [splitFirst, hc, ih hcs]

theorem issue_data (pid tok : String) :
    (issue pid tok).data = pid.data ++ ':' :: tok.data := by
  simp [issue, String.data_append]

/-- Claim C3: for every provider identifier that does not contain the
separator character, parsing the issued state recovers exactly that
identifier (and the random part), for every random token. -/
theorem parse_issue_roundTrip (pid tok : String) (h : ':' ∉ pid.data) :
    parse (issue pid tok) = Except.ok (pid, tok) := by
  unfold parse
  rw [issue_data, splitFirst_append ':' pid.data tok.data h]

/-- Witness for claim C3 at a concrete provider identifier and token. -/
theorem parse_issue_roundTrip_witness :
    ':' ∉ ("keycloak" : String).data ∧
      parse (issue "keycloak" "r4nd0m") = Except.ok ("keycloak", "r4nd0m") :=
  ⟨by decide, parse_issue_roundTrip "keycloak" "r4nd0m" (by decide)⟩

/-- Claim C4: parse splits on the first occurrence of the separator,
returning the prefix as provider identifier and the remainder (which may
itself contain the separator) as the random part, and fails with
MalformedState on every input without the separator. -/
theorem parse_split_spec (s : String) :
    (':' ∉ s.data → parse s = Except.error OidcError.MalformedState)
    ∧ (∀ a b : String, ':' ∉ a.data → s = a ++ ":" ++ b →
        parse s = Except.ok (a, b)) := by
  constructor
  · intro h
    unfold parse
    rw [splitFirst_eq_none ':' s.data h]
  · intro a b ha hs
    subst hs
    unfold parse
    rw [show (a ++ ":" ++ b).data = a.data ++ ':' :: b.data from issue_data a b,
      splitFirst_append ':' a.data b.data ha]

/-- Witness for claim C4: a separator-free input fails with MalformedState,
and an input with two separators splits at the first one. -/
theorem parse_split_spec_witness :
    parse "noseparator" = Except.error OidcError.MalformedState
    ∧ parse "alpha:r:s" = Except.ok ("alpha", "r:s") :=
  ⟨(parse_split_spec "noseparator").1 (by decide),
   (parse_split_spec "alpha:r:s").2 "alpha" "r:s" (by decide) (by decide)⟩

/-- Claim C1: whenever the callback state contains the separator and its
embedded provider identifier differs from the route's provider identifier,
the callback fails with ProviderMismatch, for every authorization code and
independently of what the rest of the flow would do. -/
theorem handleCallback_providerMismatch (pid code s : String)
    (ex : String → Except OidcError String) (sp rest : String)
    (hp : parse s = Except.ok (sp, rest)) (hne : sp ≠ pid) :
    handleCallback pid code s ex = Except.error OidcError.ProviderMismatch := by
  have hs : s ≠ "" := by
    intro h
    rw [h] at hp
    have he : parse "" = Except.error OidcError.MalformedState := rfl
    rw [he] at hp
    exact Except.noConfusion hp
  have hv : validateState pid s = Except.error OidcError.ProviderMismatch := by
    unfold validateState
    rw [if_neg hs, hp]
    simp [hne]
  unfold handleCallback
  rw [hv]

/-- Witness for claim C1 at a concrete mismatching state. -/
theorem handleCallback_providerMismatch_witness :
    handleCallback "alpha" "anycode" "beta:tok" (fun _ => Except.ok "jwt")
      = Except.error OidcError.ProviderMismatch :=
  handleCallback_providerMismatch "alpha" "anycode" "beta:tok"
    (fun _ => Except.ok "jwt") "beta" "tok" rfl (by decide)

/-- Raw provider entry of the declarative YAML source, before validation;
optional fields are absent (`none`) or present.  Field `pfx` stands for the
optional username prefix of the source (the original field name cannot be
used as a Lean identifier here). -/
structure RawProvider where
  id : String
  enabled : Bool
  discovery_url : Option String
  client_id : Option String
  client_secret : Option String
  redirect_uri : Option String
  name : Option String
  description : Option String
  icon : Option String
  display_order : Option Nat
  ca_cert_path : Option String
  scopes : Option (List String)
  cm_username : Option String
  cm_email : Option String
  cm_name : Option String
  auto_provision : Option Bool
  default_role : Option String
  pfx : Option String
deriving DecidableEq, Repr

/-- Validated provider configuration with the documented defaults applied
(claim-mapping entries keep their optionality: the guide applies their
defaults at the point of use). -/
structure ProviderConfig where
  id : String
  enabled : Bool
  discovery_url : String
  client_id : String
  client_secret : String
  redirect_uri : String
  name : String
  description : String
  icon : String
  display_order : Nat
  ca_cert_path : Option String
  scopes : List String
  cm_username : Option String
  cm_email : Option String
  cm_name : Option String
  auto_provision : Bool
  default_role : String
  pfx : String
deriving DecidableEq, Repr

/-- Modelled from the spec: the first of the four mandatory fields
(discovery URL, client id, client secret, redirect URI) that is empty or
absent in a raw entry, if any; Python truthiness makes the empty string
count as missing (Pattern 1 of the guide). -/
def mandatoryMissing (r : RawProvider) : Option String :=
  if r.discovery_url.getD "" = "" then some "discovery_url"
  else if r.client_id.getD "" = "" then some "client_id"
  else if r.client_secret.getD "" = "" then some "client_secret"
  else if r.redirect_uri.getD "" = "" then some "redirect_uri"
  else none

/-- Modelled from the spec: defaults of the optional fields, as documented
in the guide's configuration structure section; mandatory fields are taken
verbatim from the raw entry, never from any other source. -/
def applyDefaults (r : RawProvider) : ProviderConfig :=
  { id := r.id
    enabled := r.enabled
    discovery_url := r.discovery_url.getD ""
    client_id := r.client_id.getD ""
    client_secret := r.client_secret.getD ""
    redirect_uri := r.redirect_uri.getD ""
    name := r.name.getD r.id
    description := r.description.getD ""
    icon := r.icon.getD ""
    display_order := r.display_order.getD 999
    ca_cert_path := r.ca_cert_path
    scopes := r.scopes.getD ["openid", "profile", "email"]
    cm_username := r.cm_username
    cm_email := r.cm_email
    cm_name := r.cm_name
    auto_provision := r.auto_provision.getD true
    default_role := r.default_role.getD "user"
    pfx := r.pfx.getD "" }

/-- Modelled from the spec: validation of one raw entry; a missing
mandatory field yields an error naming the provider and the field. -/
def validateProvider (r : RawProvider) :
    Except (String × String) ProviderConfig :=
  match mandatoryMissing r with
  | some f => Except.error (r.id, f)
  | none => Except.ok (applyDefaults r)

/-- Modelled from the spec: loadProviders validates every entry of the
declarative source, collecting the load errors and the well-formed
providers; a rejected provider does not abort loading of the others
(settings_manager.py is not part of the repository snapshot). -/
def loadProviders : List RawProvider →
    List (String × String) × List ProviderConfig
  | [] => ([], [])
  | r :: rest =>
    match validateProvider r with
    | Except.error e => (e :: (loadProviders rest).1, (loadProviders rest).2)
    | Except.ok p => ((loadProviders rest).1, p :: (loadProviders rest).2)

/-- Ordering of the enabled-provider listing: display_order ascending,
ties broken by provider identifier. -/
def provLe (p q : ProviderConfig) : Prop :=
  p.display_order < q.display_order
    ∨ (p.display_order = q.display_order ∧ p.id ≤ q.id)

instance : DecidableRel provLe := by
  intro p q
  unfold provLe
  infer_instance

instance : IsTrans ProviderConfig provLe := by
  constructor
  intro a b c hab hbc
  rcases hab with h1 | h1
  · rcases hbc with h2 | h2
    · exact Or.inl (lt_trans h1 h2)
    · exact Or.inl (h2.1 ▸ h1)
  · rcases hbc with h2 | h2
    · exact Or.inl (h1.1 ▸ h2)
    · exact Or.inr ⟨h1.1.trans h2.1, le_trans h1.2 h2.2⟩

instance : IsTotal ProviderConfig provLe := by
  constructor
  intro a b
  rcases Nat.lt_trichotomy a.display_order b.display_order with h | h | h
  · exact Or.inl (Or.inl h)
  · rcases le_total a.id b.id with hs | hs
    · exact Or.inl (Or.inr ⟨h, hs⟩)
    · exact Or.inr (Or.inr ⟨h.symm, hs⟩)
  · exact Or.inr (Or.inl h)

/-- Modelled from the spec: listEnabled returns the providers whose
enabled flag is true, ordered by display_order ascending then identifier
(the endpoint code is not part of the repository snapshot). -/
def listEnabled (ps : List ProviderConfig) : List ProviderConfig :=
  List.insertionSort provLe (ps.filter (fun p => p.enabled))

/-- Claim C8: listEnabled returns exactly the providers whose enabled flag
is true, sorted by display_order ascending with ties broken by provider
identifier; disabled providers never appear. -/
theorem listEnabled_spec (ps : List ProviderConfig) :
    List.Sorted provLe (listEnabled ps)
    ∧ (∀ p, p ∈ listEnabled ps ↔ p ∈ ps ∧ p.enabled = true)
    ∧ (∀ p ∈ listEnabled ps, p.enabled = true) := by
  refine ⟨List.sorted_insertionSort provLe _, ?_, ?_⟩
  · intro p
    rw [listEnabled, List.mem_insertionSort, List.mem_filter]
  · intro p hp
    rw [listEnabled, List.mem_insertionSort, List.mem_filter] at hp
    exact hp.2

theorem mem_loadProviders_snd (src : List RawProvider) (p : ProviderConfig) :
    p ∈ (loadProviders src).2
      ↔ ∃ r, r ∈ src ∧ validateProvider r = Except.ok p := by
  induction src with
  | nil => simp [loadProviders]
  | cons r rest ih =>
    cases hv : validateProvider r with
    | error e =>
      simp only [loadProviders, hv]
      rw [ih]
      constructor
      · rintro ⟨r', hr', hval⟩
        exact ⟨r', List.mem_cons_of_mem r hr', hval⟩
      · rintro ⟨r', hr', hval⟩
        rcases List.mem_cons.mp hr' with h | h
        · subst h
          rw [hv] at hval
          exact Except.noConfusion hval
        · exact ⟨r', h, hval⟩
    | ok q =>
      simp only [loadProviders, hv]
      constructor
      · intro hp
        rcases List.mem_cons.mp hp with h | h
        · exact ⟨r, List.mem_cons_self r rest, by rw [hv, h]⟩
        · rcases ih.mp h with ⟨r', hr', hval⟩
          exact ⟨r', List.mem_cons_of_mem r hr', hval⟩
      · rintro ⟨r', hr', hval⟩
        rcases List.mem_cons.mp hr' with h | h
        · subst h
          rw [hv] at hval
          injection hval with hq
          rw [← hq]
          exact List.mem_cons_self q (loadProviders rest).2
        · exact List.mem_cons_of_mem q (ih.mpr ⟨r', h, hval⟩)

theorem mem_loadProviders_fst (src : List RawProvider) (e : String × String) :
    e ∈ (loadProviders src).1
      ↔ ∃ r, r ∈ src ∧ validateProvider r = Except.error e := by
  induction src with
  | nil => simp [loadProviders]
  | cons r rest ih =>
    cases hv : validateProvider r with
    | error e' =>
      simp only [loadProviders, hv]
      constructor
      · intro hp
        rcases List.mem_cons.mp hp with h | h
        · exact ⟨r, List.mem_cons_self r rest, by rw [hv, h]⟩
        · rcases ih.mp h with ⟨r', hr', hval⟩
          exact ⟨r', List.mem_cons_of_mem r hr', hval⟩
      · rintro ⟨r', hr', hval⟩
        rcases List.mem_cons.mp hr' with h | h
        · subst h
          rw [hv] at hval
          injection hval with hq
          rw [← hq]
          exact List.mem_cons_self e' (loadProviders rest).1
        · exact List.mem_cons_of_mem e' (ih.mpr ⟨r', h, hval⟩)
    | ok q =>
      simp only [loadProviders, hv]
      rw [ih]
      constructor
      · rintro ⟨r', hr', hval⟩
        exact ⟨r', List.mem_cons_of_mem r hr', hval⟩
      · rintro ⟨r', hr', hval⟩
        rcases List.mem_cons.mp hr' with h | h
        · subst h
          rw [hv] at hval
          exact Except.noConfusion hval
        · exact ⟨r', h, hval⟩

theorem validateProvider_ok (r : RawProvider) (p : ProviderConfig)
    (h : validateProvider r = Except.ok p) :
    mandatoryMissing r = none ∧ p = applyDefaults r := by
  unfold validateProvider at h
  cases hm : mandatoryMissing r with
  | some f =>
    rw [hm] at h
    exact Except.noConfusion h
  | none =>
    rw [hm] at h
    injection h with h'
    exact ⟨rfl, h'.symm⟩

theorem mandatoryMissing_eq_none (r : RawProvider)
    (h : mandatoryMissing r = none) :
    r.discovery_url.getD "" ≠ "" ∧ r.client_id.getD "" ≠ ""
      ∧ r.client_secret.getD "" ≠ "" ∧ r.redirect_uri.getD "" ≠ "" := by
  unfold mandatoryMissing at h
  by_cases h1 : r.discovery_url.getD "" = ""
  · rw [if_pos h1] at h
    exact Option.noConfusion h
  rw [if_neg h1] at h
  by_cases h2 : r.client_id.getD "" = ""
  · rw [if_pos h2] at h
    exact Option.noConfusion h
  rw [if_neg h2] at h
  by_cases h3 : r.client_secret.getD "" = ""
  · rw [if_pos h3] at h
    exact Option.noConfusion h
  rw [if_neg h3] at h
  by_cases h4 : r.redirect_uri.getD "" = ""
  · rw [if_pos h4] at h
    exact Option.noConfusion h
  exact ⟨h1, h2, h3, h4⟩

theorem raw_id_inj_of_nodup (src : List RawProvider)
    (h : (src.map RawProvider.id).Nodup) :
    ∀ a ∈ src, ∀ b ∈ src, a.id = b.id → a = b := by
  induction src with
  | nil =>
    intro a ha
    exact absurd ha (List.not_mem_nil a)
  | cons x xs ih =>
    rw [List.map_cons, List.nodup_cons] at h
    intro a ha b hb hid
    rcases List.mem_cons.mp ha with rfl | ha'
    · rcases List.mem_cons.mp hb with rfl | hb'
      · rfl
      · exact absurd (hid ▸ List.mem_map_of_mem RawProvider.id hb') h.1
    · rcases List.mem_cons.mp hb with rfl | hb'
      · exact absurd (hid ▸ List.mem_map_of_mem RawProvider.id ha') h.1
      · exact ih h.2 a ha' b hb' hid

/-- Claim C2: a provider entry with a missing or empty mandatory field is
rejected at load time with an error naming the provider and the field, is
excluded from the loaded set and from listEnabled even when enabled, while
every well-formed entry still loads; loaded providers always carry their
own non-empty mandatory fields (no fallback from any other source). -/
theorem loadProviders_missing_field (src : List RawProvider)
    (r : RawProvider) (f : String)
    (hnodup : (src.map RawProvider.id).Nodup)
    (hr : r ∈ src) (hf : mandatoryMissing r = some f) :
    (r.id, f) ∈ (loadProviders src).1
    ∧ (∀ p ∈ (loadProviders src).2, p.id ≠ r.id)
    ∧ (∀ p ∈ listEnabled (loadProviders src).2, p.id ≠ r.id)
    ∧ (∀ r' ∈ src, mandatoryMissing r' = none →
        applyDefaults r' ∈ (loadProviders src).2)
    ∧ (∀ p ∈ (loadProviders src).2,
        p.discovery_url ≠ "" ∧ p.client_id ≠ ""
          ∧ p.client_secret ≠ "" ∧ p.redirect_uri ≠ "") := by
  have h2 : ∀ p ∈ (loadProviders src).2, p.id ≠ r.id := by
    intro p hp hid
    rcases (mem_loadProviders_snd src p).mp hp with ⟨r', hr', hval⟩
    obtain ⟨hm, hpd⟩ := validateProvider_ok r' p hval
    have hid' : r'.id = r.id := by
      rw [hpd] at hid
      exact hid
    have : r' = r := raw_id_inj_of_nodup src hnodup r' hr' r hr hid'
    rw [this, hf] at hm
    exact Option.noConfusion hm
  refine ⟨?_, h2, ?_, ?_, ?_⟩
  · refine (mem_loadProviders_fst src (r.id, f)).mpr ⟨r, hr, ?_⟩
    unfold validateProvider
    rw [hf]
  · intro p hp
    rw [listEnabled, List.mem_insertionSort, List.mem_filter] at hp
    exact h2 p hp.1
  · intro r' hr' hm
    refine (mem_loadProviders_snd src (applyDefaults r')).mpr ⟨r', hr', ?_⟩
    unfold validateProvider
    rw [hm]
  · intro p hp
    rcases (mem_loadProviders_snd src p).mp hp with ⟨r', _, hval⟩
    obtain ⟨hm, hpd⟩ := validateProvider_ok r' p hval
    rw [hpd]
    exact mandatoryMissing_eq_none r' hm

/-- Concrete raw entry of a well-formed enabled provider "alpha" with the
username claim mapped to the claim key sub. -/
def alphaRaw : RawProvider :=
  { id := "alpha"
    enabled := true
    discovery_url := some "https://alpha.example/.well-known/openid-configuration"
    client_id := some "alpha-client"
    client_secret := some "alpha-secret"
    redirect_uri := some "https://app.example/auth/callback"
    name := none
    description := none
    icon := none
    display_order := some 1
    ca_cert_path := none
    scopes := none
    cm_username := some "sub"
    cm_email := none
    cm_name := none
    auto_provision := none
    default_role := none
    pfx := none }

/-- Concrete raw entry of a well-formed enabled provider "beta" with the
default claim mapping. -/
def betaRaw : RawProvider :=
  { alphaRaw with
    id := "beta"
    discovery_url := some "https://beta.example/.well-known/openid-configuration"
    client_id := some "beta-client"
    client_secret := some "beta-secret"
    display_order := some 2
    cm_username := none }

/-- Concrete raw entry that is enabled but lacks the mandatory
client_secret field. -/
def badRaw : RawProvider :=
  { alphaRaw with
    id := "bad"
    client_secret := none }

/-- Witness for claim C2 on a two-entry source: the missing-field error is
recorded for the bad entry and the well-formed entry still loads. -/
theorem loadProviders_missing_field_witness :
    ("bad", "client_secret") ∈ (loadProviders [alphaRaw, badRaw]).1
    ∧ applyDefaults alphaRaw ∈ (loadProviders [alphaRaw, badRaw]).2 := by
  have h := loadProviders_missing_field [alphaRaw, badRaw] badRaw
    "client_secret" (by decide) (by decide) (by decide)
  exact ⟨h.1, h.2.2.2.1 alphaRaw (by decide) (by decide)⟩

/-- Concrete disabled provider used in the listing witness. -/
def gammaDisabled : ProviderConfig :=
  { applyDefaults betaRaw with id := "gamma", enabled := false }

/-- Witness for claim C8 on a concrete provider set with a disabled
entry: the enabled providers appear and the listing is sorted. -/
theorem listEnabled_spec_witness :
    applyDefaults alphaRaw
        ∈ listEnabled [applyDefaults betaRaw, gammaDisabled, applyDefaults alphaRaw]
    ∧ List.Sorted provLe
        (listEnabled [applyDefaults betaRaw, gammaDisabled, applyDefaults alphaRaw]) :=
  ⟨((listEnabled_spec
        [applyDefaults betaRaw, gammaDisabled, applyDefaults alphaRaw]).2.1
      (applyDefaults alphaRaw)).mpr ⟨by decide, by decide⟩,
    (listEnabled_spec
        [applyDefaults betaRaw, gammaDisabled, applyDefaults alphaRaw]).1⟩

/-- The identity attributes mapped from verified token claims (return
value of extract_user_data in Pattern 4 of the guide). -/
structure MappedIdentity where
  username : String
  email : Option String
  realname : String
  provider_id : String
deriving DecidableEq, Repr

/-- Embedding of extract_user_data (Pattern 4 of the guide): claim names
come from the provider's own mapping with the documented defaults; a raw
claim set is a key/value list looked up by claim name.  The provider
configuration is the one already looked up for the given provider
identifier.  Python truthiness makes an empty username claim count as
missing. -/
def extract_user_data (cfg : ProviderConfig)
    (claims : List (String × String)) : Except OidcError MappedIdentity :=
  let usernameClaim := cfg.cm_username.getD "preferred_username"
  let emailClaim := cfg.cm_email.getD "email"
  let nameClaim := cfg.cm_name.getD "name"
  match claims.lookup usernameClaim with
  | none => Except.error (OidcError.ClaimMappingFailed usernameClaim)
  | some username =>
    if username = "" then Except.error (OidcError.ClaimMappingFailed usernameClaim)
    else
      Except.ok
        { username := username
          email := claims.lookup emailClaim
          realname := (claims.lookup nameClaim).getD username
          provider_id := cfg.id }

/-- Claim C5: on the raw claim set with sub mapped to u1 and
preferred_username mapped to u2, provider alpha (username claim sub)
yields username u1 while provider beta (default mapping) yields u2. -/
theorem extract_user_data_alpha_beta :
    Except.map MappedIdentity.username
        (extract_user_data (applyDefaults alphaRaw)
          [("sub", "u1"), ("preferred_username", "u2")])
      = Except.ok "u1"
    ∧ Except.map MappedIdentity.username
        (extract_user_data (applyDefaults betaRaw)
          [("sub", "u1"), ("preferred_username", "u2")])
      = Except.ok "u2" := by
  constructor
  · rfl
  · rfl

/-- Configuration error (spec section 7); the embedded _get_ssl_context
never actually produces one, which claim C6 is about. -/
structure ConfigError where
  message : String
deriving DecidableEq, Repr

/-- Per-provider TLS trust context built from a CA certificate file. -/
structure TrustContext where
  cafile : String
deriving DecidableEq, Repr

/-- Path resolution of Pattern 2 of the guide: a relative ca_cert_path is
resolved against the configuration root (`Path(ca_cert_file)` joined under
the application directory when not absolute). -/
def resolvePath (configRoot p : String) : String :=
  if p.startsWith "/" then p else configRoot ++ "/" ++ p

/-- Embedding of _get_ssl_context (Pattern 2 of the guide): returns the
cached context when present; a provider without ca_cert_path (or with an
empty one, falsy in Python) yields no custom trust; when the resolved
file exists the context is built and cached; when it does not exist the
code logs a warning and returns None — no exception is raised, so the
result type's error side is never used.  The filesystem is abstracted as
the `fileExists` predicate and the cache passes explicitly. -/
def getSslContext (fileExists : String → Bool) (configRoot : String)
    (cache : List (String × TrustContext)) (cfg : ProviderConfig) :
    Except ConfigError (Option TrustContext) × List (String × TrustContext) :=
  match cache.lookup cfg.id with
  | some ctx => (Except.ok (some ctx), cache)
  | none =>
    match cfg.ca_cert_path with
    | none => (Except.ok none, cache)
    | some p =>
      if p = "" then (Except.ok none, cache)
      else
        let file := resolvePath configRoot p
        if fileExists file then
          (Except.ok (some ⟨file⟩), (cfg.id, (⟨file⟩ : TrustContext)) :: cache)
        else
          (Except.ok none, cache)

/-- Concrete provider "corp" whose ca_cert_path names a file that the
filesystem oracle below reports as absent. -/
def corpProvider : ProviderConfig :=
  { applyDefaults alphaRaw with
    id := "corp"
    ca_cert_path := some "certs/missing.pem" }

/-- Counterexample to claim C6: with ca_cert_path set to a non-existent
file, the embedded _get_ssl_context returns Except.ok none — a successful
"no custom trust" result — instead of failing with ConfigError. -/
theorem getSslContext_missing_file_cx :
    getSslContext (fun _ => false) "/app/config" [] corpProvider
      = (Except.ok none, []) := rfl

/-- Claim C6, amended: for every provider whose ca_cert_path is set to a
non-empty path whose resolved file does not exist (and that has no cached
context), getTrustContext logs a warning and returns no trust context
(Except.ok none) with the cache unchanged, rather than failing with
ConfigError. -/
theorem getSslContext_missing_file_none (fileExists : String → Bool)
    (configRoot : String) (cache : List (String × TrustContext))
    (cfg : ProviderConfig) (p : String)
    (hc : cache.lookup cfg.id = none) (hp : cfg.ca_cert_path = some p)
    (hne : p ≠ "") (hf : fileExists (resolvePath configRoot p) = false) :
    getSslContext fileExists configRoot cache cfg
      = (Except.ok none, cache) := by
  unfold getSslContext
  rw [hc, hp]
  simp [hne, hf]

/-- Witness for the amended claim C6 at a concrete provider and a cache
holding an entry for a different provider. -/
theorem getSslContext_missing_file_none_witness :
    getSslContext (fun _ => false) "/app/config"
        [("other", ⟨"/etc/ssl/other.pem"⟩)] corpProvider
      = (Except.ok none, [("other", ⟨"/etc/ssl/other.pem"⟩)]) :=
  getSslContext_missing_file_none (fun _ => false) "/app/config"
    [("other", ⟨"/etc/ssl/other.pem"⟩)] corpProvider "certs/missing.pem"
    rfl rfl (by decide) rfl

/-- A record of the local user store. -/
structure LocalUser where
  username : String
  role : String
  provider_id : String
deriving DecidableEq, Repr

/-- Modelled from the spec: resolveUser of the User Provisioning Bridge
(provision_or_get_user is named but not included in the repository
snapshot).  The effective username applies the provider's optional
username prefix; an existing user is returned unchanged; an absent user is
created with the provider's default role when auto_provision is true and
rejected with ProvisioningDisabled when it is false.  The user store
passes explicitly; the second component of the result is the store after
the call. -/
def resolveUser (cfg : ProviderConfig) (ident : MappedIdentity)
    (store : List LocalUser) :
    Except OidcError LocalUser × List LocalUser :=
  let uname := cfg.pfx ++ ident.username
  match store.find? (fun u => u.username == uname) with
  | some u => (Except.ok u, store)
  | none =>
    if cfg.auto_provision then
      (Except.ok ⟨uname, cfg.default_role, cfg.id⟩,
        store ++ [⟨uname, cfg.default_role, cfg.id⟩])
    else
      (Except.error OidcError.ProvisioningDisabled, store)

/-- Claim C7: with auto_provision false and no matching existing local
user, resolveUser fails with ProvisioningDisabled and leaves the user
store unchanged. -/
theorem resolveUser_provisioning_disabled (cfg : ProviderConfig)
    (ident : MappedIdentity) (store : List LocalUser)
    (hap : cfg.auto_provision = false)
    (habsent : store.find? (fun u => u.username == cfg.pfx ++ ident.username)
      = none) :
    resolveUser cfg ident store
      = (Except.error OidcError.ProvisioningDisabled, store) := by
  simp only [resolveUser]
  rw [habsent]
  simp [hap]

/-- Concrete provider with auto-provisioning switched off. -/
def noProvisionProvider : ProviderConfig :=
  { applyDefaults alphaRaw with id := "manual", auto_provision := false }

/-- Witness for claim C7: a new federated identity against a non-empty
store of unrelated users is rejected and the store is unchanged. -/
theorem resolveUser_provisioning_disabled_witness :
    resolveUser noProvisionProvider
        { username := "jdoe", email := none, realname := "jdoe",
          provider_id := "manual" }
        [⟨"existing", "user", "alpha"⟩]
      = (Except.error OidcError.ProvisioningDisabled,
          [⟨"existing", "user", "alpha"⟩]) :=
  resolveUser_provisioning_disabled noProvisionProvider
    { username := "jdoe", email := none, realname := "jdoe",
      provider_id := "manual" }
    [⟨"existing", "user", "alpha"⟩] rfl (by decide)

/-- User record held by the frontend auth store (auth-store.ts). -/
structure User where
  id : String
  username : String
  email : Option String
  role : Option String
  permissions : Option Nat
deriving DecidableEq, Repr

/-- The three state fields of the Zustand auth store. -/
structure AuthState where
  token : Option String
  user : Option User
  isAuthenticated : Bool
deriving DecidableEq, Repr

/-- The two auth cookies; `userInfo` holds the raw serialized user
string. -/
structure CookieJar where
  authToken : Option String
  userInfo : Option String
deriving DecidableEq, Repr

/-- Combined store state and browser cookies acted on by the auth store
operations (localStorage migration cleanup carries no state the store
reads back, so it is outside the modelled state). -/
structure World where
  state : AuthState
  cookies : CookieJar
deriving DecidableEq, Repr

/-- Embedding of getCookieToken: `Cookies.get(...) || null` turns an empty
cookie value into null. -/
def getCookieToken (c : CookieJar) : Option String :=
  match c.authToken with
  | none => none
  | some t => if t = "" then none else some t

/-- Embedding of getCookieUser: absent cookie or failed JSON parse yields
null; parsing is abstracted as the `parseUser` argument. -/
def getCookieUser (parseUser : String → Option User) (c : CookieJar) :
    Option User :=
  match c.userInfo with
  | none => none
  | some s => parseUser s

/-- Embedding of removeCookies: both auth cookies are removed. -/
def removeCookies (_c : CookieJar) : CookieJar :=
  { authToken := none, userInfo := none }

/-- Embedding of the login action: sets both cookies and the three state
fields together; serialization is abstracted as `ser`. -/
def login (ser : User → String) (_w : World) (token : String) (u : User) :
    World :=
  { state := { token := some token, user := some u, isAuthenticated := true }
    cookies := { authToken := some token, userInfo := some (ser u) } }

/-- Embedding of the logout action: removes the cookies and clears the
three state fields. -/
def logout (w : World) : World :=
  { state := { token := none, user := none, isAuthenticated := false }
    cookies := removeCookies w.cookies }

/-- Embedding of the setUser action: updates the user cookie and the user
field only. -/
def setUser (ser : User → String) (w : World) (u : User) : World :=
  { state := { w.state with user := some u }
    cookies := { w.cookies with userInfo := some (ser u) } }

/-- Embedding of the hydrate action: loads both cookies; when both the
token and a parseable user are present it sets the three state fields,
otherwise it removes the cookies and resets the state. -/
def hydrate (parseUser : String → Option User) (w : World) : World :=
  match getCookieToken w.cookies, getCookieUser parseUser w.cookies with
  | some t, some u =>
    { w with
      state := { token := some t, user := some u, isAuthenticated := true } }
  | _, _ =>
    { state := { token := none, user := none, isAuthenticated := false }
      cookies := removeCookies w.cookies }

/-- The auth store invariant: isAuthenticated holds exactly when the token
is non-null, and then the user is non-null too. -/
def authInvariant (s : AuthState) : Prop :=
  (s.isAuthenticated = true ↔ s.token ≠ none)
    ∧ (s.isAuthenticated = true → s.user ≠ none)

/-- Claim C9: every auth store operation preserves the invariant; login
sets token, user and isAuthenticated together; logout clears all three and
removes both cookies; hydrate sets all three exactly when the token cookie
and a parseable user cookie are both present, and otherwise removes both
cookies and resets the state to unauthenticated. -/
theorem authStore_invariant (ser : User → String)
    (parseUser : String → Option User) (w : World) (t : String) (u : User) :
    (authInvariant (login ser w t u).state
      ∧ (login ser w t u).state
          = { token := some t, user := some u, isAuthenticated := true }
      ∧ (login ser w t u).cookies
          = { authToken := some t, userInfo := some (ser u) })
    ∧ (authInvariant (logout w).state
      ∧ logout w
          = { state := { token := none, user := none, isAuthenticated := false }
              cookies := { authToken := none, userInfo := none } })
    ∧ (authInvariant w.state → authInvariant (setUser ser w u).state)
    ∧ authInvariant (hydrate parseUser w).state
    ∧ (∀ t' u', getCookieToken w.cookies = some t' →
        getCookieUser parseUser w.cookies = some u' →
        (hydrate parseUser w).state
            = { token := some t', user := some u', isAuthenticated := true }
          ∧ (hydrate parseUser w).cookies = w.cookies)
    ∧ ((getCookieToken w.cookies = none
          ∨ getCookieUser parseUser w.cookies = none) →
        hydrate parseUser w
          = { state := { token := none, user := none, isAuthenticated := false }
              cookies := { authToken := none, userInfo := none } }) := by
  refine ⟨⟨?_, rfl, rfl⟩, ⟨?_, rfl⟩, ?_, ?_, ?_, ?_⟩
  · simp [login, authInvariant]
  · simp [logout, authInvariant]
  · intro h
    exact ⟨h.1, fun _ => by simp [setUser]⟩
  · cases hgt : getCookieToken w.cookies with
    | none =>
      cases hgu : getCookieUser parseUser w.cookies with
      | none => simp [hydrate, hgt, hgu, authInvariant]
      | some u' => simp [hydrate, hgt, hgu, authInvariant]
    | some t' =>
      cases hgu : getCookieUser parseUser w.cookies with
      | none => simp [hydrate, hgt, hgu, authInvariant]
      | some u' => simp [hydrate, hgt, hgu, authInvariant]
  · intro t' u' h1 h2
    constructor
    · simp [hydrate, h1, h2]
    · simp [hydrate, h1, h2]
  · rintro (h | h)
    · cases hgu : getCookieUser parseUser w.cookies with
      | none => simp [hydrate, h, hgu, removeCookies]
      | some u' => simp [hydrate, h, hgu, removeCookies]
    · cases hgt : getCookieToken w.cookies with
      | none => simp [hydrate, h, hgt, removeCookies]
      | some t' => simp [hydrate, h, hgt, removeCookies]

/-- Witness for claim C9 at concrete worlds: a hydrate over empty cookies
resets the store, and a hydrate over populated parseable cookies
authenticates with exactly the cookie contents. -/
theorem authStore_invariant_witness :
    hydrate (fun _ => none)
        { state := { token := none, user := none, isAuthenticated := false }
          cookies := { authToken := none, userInfo := none } }
      = { state := { token := none, user := none, isAuthenticated := false }
          cookies := { authToken := none, userInfo := none } }
    ∧ (hydrate (fun _ => some ⟨"1", "alice", none, none, none⟩)
        { state := { token := none, user := none, isAuthenticated := false }
          cookies := { authToken := some "tok", userInfo := some "ser" } }).state
      = { token := some "tok", user := some ⟨"1", "alice", none, none, none⟩,
          isAuthenticated := true } :=
  ⟨(authStore_invariant (fun _ => "s") (fun _ => none)
      { state := { token := none, user := none, isAuthenticated := false }
        cookies := { authToken := none, userInfo := none } }
      "t" ⟨"1", "alice", none, none, none⟩).2.2.2.2.2 (Or.inl rfl),
   ((authStore_invariant (fun _ => "s")
      (fun _ => some ⟨"1", "alice", none, none, none⟩)
      { state := { token := none, user := none, isAuthenticated := false }
        cookies := { authToken := some "tok", userInfo := some "ser" } }
      "t" ⟨"1", "alice", none, none, none⟩).2.2.2.2.1
      "tok" ⟨"1", "alice", none, none, none⟩ (by decide) rfl).1⟩

/-- Permission bit flags of permissions-management.tsx, matching the
backend. -/
def PERMISSION_READ : Nat := 1

/-- Write permission bit. -/
def PERMISSION_WRITE : Nat := 2

/-- Admin permission bit. -/
def PERMISSION_ADMIN : Nat := 4

/-- Delete permission bit. -/
def PERMISSION_DELETE : Nat := 8

/-- User-management permission bit. -/
def PERMISSION_USER_MANAGE : Nat := 16

/-- Permission mask of the viewer role. -/
def PERMISSIONS_VIEWER : Nat := PERMISSION_READ

/-- Permission mask of the user role. -/
def PERMISSIONS_USER : Nat := PERMISSION_READ ||| PERMISSION_WRITE

/-- Permission mask of the admin role. -/
def PERMISSIONS_ADMIN : Nat :=
  PERMISSION_READ ||| PERMISSION_WRITE ||| PERMISSION_ADMIN
    ||| PERMISSION_DELETE ||| PERMISSION_USER_MANAGE

/-- Claim C10: the role permission masks are nested: viewer AND user
equals viewer, user AND admin equals user, so every permission bit of the
viewer role is granted to the user role and every bit of the user role to
the admin role. -/
theorem rolePermissions_nested :
    PERMISSIONS_VIEWER &&& PERMISSIONS_USER = PERMISSIONS_VIEWER
    ∧ PERMISSIONS_USER &&& PERMISSIONS_ADMIN = PERMISSIONS_USER
    ∧ (∀ i, Nat.testBit PERMISSIONS_VIEWER i = true →
        Nat.testBit PERMISSIONS_USER i = true)
    ∧ (∀ i, Nat.testBit PERMISSIONS_USER i = true →
        Nat.testBit PERMISSIONS_ADMIN i = true) := by
  have hmask : ∀ a b : Nat, a &&& b = a →
      ∀ i, a.testBit i = true → b.testBit i = true := by
    intro a b hab i hi
    have h := congrArg (fun n => Nat.testBit n i) hab
    simp only [Nat.testBit_land] at h
    rw [hi] at h
    simpa using h
  exact ⟨by decide, by decide, hmask _ _ (by decide), hmask _ _ (by decide)⟩

/-- Witness for claim C10: the bit granted to the user role at position
one is granted to the admin role. -/
theorem rolePermissions_nested_witness :
    Nat.testBit PERMISSIONS_ADMIN 1 = true :=
  rolePermissions_nested.2.2.2 1 (by decide)
